import Mathlib

/-!
Verification development for the ChatGPT-GUI network core
(`chatgpt_gui/network/manager.py`, `chatgpt_gui/network/client/structures.py`,
`chatgpt_gui/network/client/chatgpt.py`, `chatgpt_gui/network/client/auth.py`).

The Python code is shallowly embedded: pure functions become Lean functions,
stateful methods become explicit state-passing functions, network replies are
supplied by explicit environment records, and code that can raise returns
Option/Except.
-/

set_option maxRecDepth 4000

namespace CGui

/-! ### Python `datetime` model

`structures.py` serializes `datetime` fields with
`strftime(CG_DATE_FORMAT)` / `strptime(value, CG_DATE_FORMAT)`.  The constant
`CG_DATE_FORMAT` is referenced by `structures.py` via a star-import from
`constants.py`, but this snapshot of `constants.py` does not define it.
Modelled from the spec: timestamps use the fixed fractional-seconds UTC format
given in the spec, `%Y-%m-%dT%H:%M:%S.%fZ`.
-/

/-- Naive Python `datetime.datetime` value (date plus time of day, microsecond
precision, no timezone). -/
structure PyDateTime where
  year : Nat
  month : Nat
  day : Nat
  hour : Nat
  minute : Nat
  second : Nat
  microsecond : Nat
deriving DecidableEq

/-- The invariants Python's `datetime` constructor enforces on its fields
(`MINYEAR = 1`, `MAXYEAR = 9999`; day-of-month upper bound kept coarse at 31,
which is all the round-trip argument needs). -/
def PyDateTime.valid (d : PyDateTime) : Prop :=
  1 ≤ d.year ∧ d.year ≤ 9999 ∧ 1 ≤ d.month ∧ d.month ≤ 12 ∧ 1 ≤ d.day ∧ d.day ≤ 31 ∧
    d.hour ≤ 23 ∧ d.minute ≤ 59 ∧ d.second ≤ 59 ∧ d.microsecond ≤ 999999

instance : DecidablePred PyDateTime.valid := fun d => by
  unfold PyDateTime.valid; infer_instance

/-- Python `datetime` comparison is lexicographic on the fields; this is the
`<` used by `refresh_auth` and `is_valid_clearance`. -/
def PyDateTime.lt (a b : PyDateTime) : Bool :=
  if a.year ≠ b.year then a.year < b.year
  else if a.month ≠ b.month then a.month < b.month
  else if a.day ≠ b.day then a.day < b.day
  else if a.hour ≠ b.hour then a.hour < b.hour
  else if a.minute ≠ b.minute then a.minute < b.minute
  else if a.second ≠ b.second then a.second < b.second
  else a.microsecond < b.microsecond

/-- Big-endian list of the low `k` decimal digits of `n`, zero padded, as
produced by the zero-padded numeric directives of `strftime`. -/
def padNum : Nat → Nat → List Nat
  | 0, _ => []
  | k + 1, n => n / 10 ^ k % 10 :: padNum k (n % 10 ^ k)

/-- Decimal digit to its ASCII character. -/
def digitChar (d : Nat) : Char := Char.ofNat (48 + d)

/-- ASCII digit character back to its value. -/
def charVal (c : Char) : Nat := c.toNat - 48

/-- Zero-padded fixed-width decimal rendering (`%Y`, `%m`, ..., `%f`). -/
def padStr (k n : Nat) : String := String.mk ((padNum k n).map digitChar)

/-- Consume exactly `k` ASCII digits, extending the accumulator, as the
fixed-width numeric directives of `strptime` do. -/
def parseDigitsAux : Nat → Nat → List Char → Option (Nat × List Char)
  | acc, 0, cs => some (acc, cs)
  | _, _ + 1, [] => none
  | acc, k + 1, c :: cs =>
    if c.isDigit then parseDigitsAux (10 * acc + charVal c) k cs else none

/-- Consume one expected literal character of the format string. -/
def expectChar (c : Char) : List Char → Option (List Char)
  | [] => none
  | x :: xs => if x = c then some xs else none

/-- Model of `datetime.strftime(CG_DATE_FORMAT)` for the format
`%Y-%m-%dT%H:%M:%S.%fZ` (all numeric fields zero padded). -/
def dtFormat (d : PyDateTime) : String :=
  padStr 4 d.year ++ "-" ++ padStr 2 d.month ++ "-" ++ padStr 2 d.day ++ "T" ++
    padStr 2 d.hour ++ ":" ++ padStr 2 d.minute ++ ":" ++ padStr 2 d.second ++ "." ++
    padStr 6 d.microsecond ++ "Z"

/-- Consume one fixed-width numeric field of the format followed by the next
literal separator character. -/
def parseField (k : Nat) (sep : Char) (cs : List Char) : Option (Nat × List Char) := do
  let (n, cs) ← parseDigitsAux 0 k cs
  let cs ← expectChar sep cs
  some (n, cs)

/-- Model of `datetime.strptime(s, CG_DATE_FORMAT)`: fixed-width numeric
fields separated by the literal characters of the format, the whole string
consumed, with the range checks `strptime` and the `datetime` constructor
apply.  Returns `none` where Python raises `ValueError`. -/
def dtParse (s : String) : Option PyDateTime := do
  let (y, cs) ← parseField 4 '-' s.toList
  let (mo, cs) ← parseField 2 '-' cs
  let (da, cs) ← parseField 2 'T' cs
  let (h, cs) ← parseField 2 ':' cs
  let (mi, cs) ← parseField 2 ':' cs
  let (sec, cs) ← parseField 2 '.' cs
  let (us, cs) ← parseField 6 'Z' cs
  if cs.isEmpty ∧ 1 ≤ mo ∧ mo ≤ 12 ∧ 1 ≤ da ∧ da ≤ 31 ∧ h ≤ 23 ∧ mi ≤ 59 ∧ sec ≤ 59 then
    some ⟨y, mo, da, h, mi, sec, us⟩
  else
    none

theorem digitChar_isDigit : ∀ d, d < 10 → (digitChar d).isDigit = true := by decide

theorem charVal_digitChar : ∀ d, d < 10 → charVal (digitChar d) = d := by decide

theorem parseDigitsAux_pad (k : Nat) :
    ∀ (acc n : Nat) (rest : List Char), n < 10 ^ k →
      parseDigitsAux acc k ((padNum k n).map digitChar ++ rest) =
        some (acc * 10 ^ k + n, rest) := by
  induction k with
  | zero =>
    intro acc n rest h
    simp only [pow_zero, Nat.lt_one_iff] at h
    subst h
    simp [padNum, parseDigitsAux]
  | succ k ih =>
    intro acc n rest h
    have hd : n / 10 ^ k % 10 < 10 := Nat.mod_lt _ (by norm_num)
    have hm : n % 10 ^ k < 10 ^ k := Nat.mod_lt _ (Nat.pos_pow_of_pos k (by norm_num))
    simp only [padNum, List.map_cons, List.cons_append, List.append_eq, parseDigitsAux,
      digitChar_isDigit _ hd, if_true, charVal_digitChar _ hd]
    rw [ih _ _ _ hm]
    congr 2
    have hdiv : n / 10 ^ k < 10 := by
      apply Nat.div_lt_of_lt_mul
      calc n < 10 ^ (k + 1) := h
        _ = 10 ^ k * 10 := pow_succ 10 k
    rw [Nat.mod_eq_of_lt hdiv]
    have hdm : 10 ^ k * (n / 10 ^ k) + n % 10 ^ k = n := Nat.div_add_mod n (10 ^ k)
    calc (10 * acc + n / 10 ^ k) * 10 ^ k + n % 10 ^ k
        = acc * (10 ^ k * 10) + (10 ^ k * (n / 10 ^ k) + n % 10 ^ k) := by ring
      _ = acc * 10 ^ (k + 1) + n := by rw [hdm, pow_succ]

theorem toList_padStr (k n : Nat) : (padStr k n).toList = (padNum k n).map digitChar := rfl

theorem expectChar_cons_self (c : Char) (xs : List Char) : expectChar c (c :: xs) = some xs := by
  simp [expectChar]

theorem parseField_pad (k : Nat) (sep : Char) (n : Nat) (rest : List Char) (h : n < 10 ^ k) :
    parseField k sep ((padNum k n).map digitChar ++ sep :: rest) = some (n, rest) := by
  rw [parseField, parseDigitsAux_pad k 0 n _ h]
  simp [Option.bind_eq_bind, Option.some_bind, expectChar_cons_self]

set_option maxHeartbeats 1600000 in
theorem dtParse_dtFormat (d : PyDateTime) (h : d.valid) : dtParse (dtFormat d) = some d := by
  obtain ⟨h1, h2, h3, h4, h5, h6, h7, h8, h9, h10⟩ := h
  have hy : d.year < 10 ^ 4 := by omega
  have hmo : d.month < 10 ^ 2 := by omega
  have hda : d.day < 10 ^ 2 := by omega
  have hh : d.hour < 10 ^ 2 := by omega
  have hmi : d.minute < 10 ^ 2 := by omega
  have hs : d.second < 10 ^ 2 := by omega
  have hus : d.microsecond < 10 ^ 6 := by omega
  have htl : (dtFormat d).toList =
      (padNum 4 d.year).map digitChar ++ '-' ::
        ((padNum 2 d.month).map digitChar ++ '-' ::
          ((padNum 2 d.day).map digitChar ++ 'T' ::
            ((padNum 2 d.hour).map digitChar ++ ':' ::
              ((padNum 2 d.minute).map digitChar ++ ':' ::
                ((padNum 2 d.second).map digitChar ++ '.' ::
                  ((padNum 6 d.microsecond).map digitChar ++ ['Z'])))))) := by
    show (dtFormat d).data = _
    simp only [dtFormat, padStr, String.data_append, List.append_assoc]
    rfl
  simp only [dtParse, htl]
  rw [parseField_pad 4 '-' d.year _ hy]
  simp only [Option.bind_eq_bind, Option.some_bind]
  rw [parseField_pad 2 '-' d.month _ hmo]
  simp only [Option.bind_eq_bind, Option.some_bind]
  rw [parseField_pad 2 'T' d.day _ hda]
  simp only [Option.bind_eq_bind, Option.some_bind]
  rw [parseField_pad 2 ':' d.hour _ hh]
  simp only [Option.bind_eq_bind, Option.some_bind]
  rw [parseField_pad 2 ':' d.minute _ hmi]
  simp only [Option.bind_eq_bind, Option.some_bind]
  rw [parseField_pad 2 '.' d.second _ hs]
  simp only [Option.bind_eq_bind, Option.some_bind]
  rw [parseField_pad 6 'Z' d.microsecond _ hus]
  simp only [Option.bind_eq_bind, Option.some_bind]
  rw [if_pos ⟨rfl, h3, h4, h5, h6, h7, h8, h9⟩]

/-! ### JSON values

The Python code passes JSON data around as `dict`/`list`/`str`/`None` values
produced by `json.loads` and consumed by `json.dumps`.  `Json.null` models
Python `None`; objects keep their key order (Python dicts preserve insertion
order, and the (de)serializers in `structures.py` only ever build
duplicate-free key lists). -/
inductive Json where
  | null : Json
  | bool : Bool → Json
  | num : Int → Json
  | str : String → Json
  | arr : List Json → Json
  | obj : List (String × Json) → Json

/-- Association-list lookup, first match wins (Python dict keys are unique). -/
def jLookup : List (String × Json) → String → Option Json
  | [], _ => none
  | (k, v) :: rest, key => if k = key then some v else jLookup rest key

/-- Model of `data.get(key)` being non-`None`: a JSON `null` value and a
missing key both give Python `None`, collapsed to `none` here. -/
def pyGet (fields : List (String × Json)) (key : String) : Option Json :=
  match jLookup fields key with
  | some Json.null => none
  | some v => some v
  | none => none

/-- Python truthiness of a JSON-like value (`if not user:` in
`Session.from_json`). -/
def jTruthy : Json → Bool
  | .null => false
  | .bool b => b
  | .num n => n ≠ 0
  | .str s => s ≠ ""
  | .arr l => !l.isEmpty
  | .obj l => !l.isEmpty

/-- Extract a JSON string value. -/
def asStr : Json → Option String
  | .str s => some s
  | _ => none

/-- A JSON value that must be a list of strings. -/
def asStrList : Json → Option (List String)
  | .arr l => l.mapM asStr
  | _ => none

/-! ### `structures.py`: `User` and `Session` -/

/-- `structures.User`: frozen snapshot of the signed-in account. -/
structure User where
  id : String
  name : String
  email : String
  image : String
  picture : String
  groups : List String
  features : List String
deriving DecidableEq

/-- `User.to_json`: all seven fields, always present. -/
def User.to_json (u : User) : Json :=
  .obj [("id", .str u.id), ("name", .str u.name), ("email", .str u.email),
    ("image", .str u.image), ("picture", .str u.picture),
    ("groups", .arr (u.groups.map Json.str)), ("features", .arr (u.features.map Json.str))]

/-- The keyword names accepted by the `User` dataclass constructor. -/
def userKeys : List String :=
  ["id", "name", "email", "image", "picture", "groups", "features"]

/-- A required constructor argument of `User`.  The dataclass annotates these
as `str`; values produced by `User.to_json` always conform, and this model
rejects non-string values (Python would store them untyped). -/
def reqStr (fields : List (String × Json)) (key : String) : Option String :=
  match jLookup fields key with
  | some (Json.str s) => some s
  | _ => none

/-- An optional list-of-strings constructor argument of `User`
(`groups`/`features`, defaulting to the empty list when the key is absent). -/
def optStrListField (fields : List (String × Json)) (key : String) : Option (List String) :=
  match jLookup fields key with
  | none => some []
  | some (Json.arr l) => l.mapM asStr
  | some _ => none

/-- `User.from_json`, i.e. `cls(**data)`: every key must be a constructor
argument (unknown keywords raise `TypeError`, modelled as `none`), the five
required fields must be present. -/
def User.from_json (j : Json) : Option User :=
  match j with
  | .obj fields =>
    if fields.all fun kv => userKeys.contains kv.1 then do
      let idv ← reqStr fields "id"
      let nm ← reqStr fields "name"
      let em ← reqStr fields "email"
      let im ← reqStr fields "image"
      let pic ← reqStr fields "picture"
      let gr ← optStrListField fields "groups"
      let ft ← optStrListField fields "features"
      some ⟨idv, nm, em, im, pic, gr, ft⟩
    else none
  | _ => none

/-- `structures.Session`: the persisted authentication snapshot. -/
structure Session where
  user : Option User
  cf_bm : Option String
  cf_unique_visitor_id : Option String
  cf_clearance : Option String
  cf_expires : Option PyDateTime
  session_expires : Option PyDateTime
  session_token : Option String
  user_agent : Option String
deriving DecidableEq

/-- The empty `Session()` constructed at Client startup. -/
def Session.empty : Session :=
  ⟨none, none, none, none, none, none, none, none⟩

/-- `Session.clear`: reset every field to `None` while keeping the object. -/
def Session.clear (_s : Session) : Session := Session.empty

/-- `Session.is_valid_clearance`: clearance cookie non-empty and its recorded
expiry not yet passed at the given wall-clock instant. -/
def Session.is_valid_clearance (s : Session) (now : PyDateTime) : Bool :=
  (match s.cf_clearance with
    | some c => c ≠ ""
    | none => false) &&
  (match s.cf_expires with
    | some e => !PyDateTime.lt e now || e = now
    | none => false)

/-- An optional string serialized as the string or JSON `null`. -/
def optStrJson : Option String → Json
  | some s => .str s
  | none => .null

/-- An optional timestamp serialized with `strftime(CG_DATE_FORMAT)` or JSON
`null`. -/
def optDateJson : Option PyDateTime → Json
  | some d => .str (dtFormat d)
  | none => .null

/-- The `cloudflare` sub-object written by `Session.to_json`. -/
def cloudflareJson (s : Session) : List (String × Json) :=
  [("bm", optStrJson s.cf_bm),
    ("unique_visitor_id", optStrJson s.cf_unique_visitor_id),
    ("clearance", optStrJson s.cf_clearance),
    ("expires", optDateJson s.cf_expires)]

/-- The top-level key/value list written by `Session.to_json`. -/
def sessionJson (s : Session) : List (String × Json) :=
  [("user", match s.user with | some u => User.to_json u | none => .obj []),
    ("cloudflare", .obj (cloudflareJson s)),
    ("expires", optDateJson s.session_expires),
    ("token", optStrJson s.session_token),
    ("user_agent", optStrJson s.user_agent)]

/-- `Session.to_json`: fixed five-key layout; absent optional fields become
`null` (the `user` field becomes the empty object). -/
def Session.to_json (s : Session) : Json := .obj (sessionJson s)

/-- `cf_data = data.get('cloudflare', {})`, which must then support `.get`:
a missing key defaults to the empty dict, any non-object value (including
`null`, i.e. Python `None`) makes the subsequent `.get` calls raise. -/
def cfField (fields : List (String × Json)) : Option (List (String × Json)) :=
  match jLookup fields "cloudflare" with
  | none => some []
  | some (Json.obj f) => some f
  | some _ => none

/-- The `user` branch of `Session.from_json`: `None`/missing stays `None`, a
falsy value (the empty object) becomes `None`, anything else goes through
`User.from_json`. -/
def userField (fields : List (String × Json)) : Option (Option User) :=
  match pyGet fields "user" with
  | none => some none
  | some v => if jTruthy v then (User.from_json v).map some else some none

/-- A plain `.get(key)` field of `Session.from_json` (stored untyped by
Python; values produced by `Session.to_json` are always strings or null). -/
def strField (fields : List (String × Json)) (key : String) : Option (Option String) :=
  match pyGet fields key with
  | none => some none
  | some (Json.str s) => some (some s)
  | some _ => none

/-- An `expires` field: if present and non-null it is parsed with
`strptime(value, CG_DATE_FORMAT)`, whose `ValueError` is modelled as `none`. -/
def dateField (fields : List (String × Json)) (key : String) : Option (Option PyDateTime) :=
  match pyGet fields key with
  | none => some none
  | some (Json.str s) => (dtParse s).map some
  | some _ => none

/-- The three cloudflare string cookies and the cloudflare expiry, read from
the `cloudflare` sub-object. -/
def cfParts (cf : List (String × Json)) :
    Option (Option String × Option String × Option String × Option PyDateTime) := do
  let bm ← strField cf "bm"
  let uvi ← strField cf "unique_visitor_id"
  let clearance ← strField cf "clearance"
  let e ← dateField cf "expires"
  some (bm, uvi, clearance, e)

/-- `Session.from_json`: builds a `Session` from the persisted JSON layout;
`none` models the exceptions Python would raise on malformed data. -/
def Session.from_json (j : Json) : Option Session :=
  match j with
  | .obj data => do
    let cf ← cfField data
    let user ← userField data
    let (bm, uvi, clearance, cfExp) ← cfParts cf
    let sessExp ← dateField data "expires"
    let token ← strField data "token"
    let ua ← strField data "user_agent"
    some ⟨user, bm, uvi, clearance, cfExp, sessExp, token, ua⟩
  | _ => none

/-- Validity of an optional datetime field. -/
def optValid : Option PyDateTime → Prop
  | none => True
  | some d => d.valid

instance (o : Option PyDateTime) : Decidable (optValid o) :=
  match o with
  | none => isTrue trivial
  | some d => inferInstanceAs (Decidable d.valid)

/-- Validity of the datetime fields of a `Session` (every Python `datetime`
value satisfies it by construction). -/
def Session.validDates (s : Session) : Prop :=
  optValid s.cf_expires ∧ optValid s.session_expires

instance (s : Session) : Decidable s.validDates :=
  inferInstanceAs (Decidable (optValid s.cf_expires ∧ optValid s.session_expires))

theorem mapM_asStr_map_str (l : List String) : (l.map Json.str).mapM asStr = some l := by
  induction l with
  | nil => rfl
  | cons x xs ih =>
    rw [List.map_cons, List.mapM_cons, ih]
    rfl

theorem user_from_json_to_json (u : User) : User.from_json (User.to_json u) = some u := by
  have h1 := mapM_asStr_map_str u.groups
  have h2 := mapM_asStr_map_str u.features
  show Option.bind ((u.groups.map Json.str).mapM asStr)
      (fun gr => Option.bind ((u.features.map Json.str).mapM asStr)
        (fun ft => some ⟨u.id, u.name, u.email, u.image, u.picture, gr, ft⟩)) = some u
  rw [h1, h2]
  rfl

theorem cfField_sessionJson (s : Session) :
    cfField (sessionJson s) = some (cloudflareJson s) := rfl

theorem userField_sessionJson (s : Session) : userField (sessionJson s) = some s.user := by
  match h : s.user with
  | none => rw [sessionJson, h]; rfl
  | some u =>
    rw [sessionJson, h]
    show (User.from_json (User.to_json u)).map some = some (some u)
    rw [user_from_json_to_json u]
    rfl

theorem strField_token (s : Session) :
    strField (sessionJson s) "token" = some s.session_token := by
  rw [sessionJson]
  cases s.session_token <;> rfl

theorem strField_ua (s : Session) :
    strField (sessionJson s) "user_agent" = some s.user_agent := by
  rw [sessionJson]
  cases s.user_agent <;> rfl

theorem dateField_sessionJson (s : Session) (h : optValid s.session_expires) :
    dateField (sessionJson s) "expires" = some s.session_expires := by
  rw [sessionJson]
  match hx : s.session_expires with
  | none => rfl
  | some d =>
    rw [hx] at h
    show (dtParse (dtFormat d)).map some = some (some d)
    rw [dtParse_dtFormat d h]
    rfl

theorem strField_bm (s : Session) :
    strField (cloudflareJson s) "bm" = some s.cf_bm := by
  rw [cloudflareJson]
  cases s.cf_bm <;> rfl

theorem strField_uvi (s : Session) :
    strField (cloudflareJson s) "unique_visitor_id" = some s.cf_unique_visitor_id := by
  rw [cloudflareJson]
  cases s.cf_unique_visitor_id <;> rfl

theorem strField_clearance (s : Session) :
    strField (cloudflareJson s) "clearance" = some s.cf_clearance := by
  rw [cloudflareJson]
  cases s.cf_clearance <;> rfl

theorem dateField_cloudflareJson (s : Session) (h : optValid s.cf_expires) :
    dateField (cloudflareJson s) "expires" = some s.cf_expires := by
  rw [cloudflareJson]
  match hx : s.cf_expires with
  | none => rfl
  | some d =>
    rw [hx] at h
    show (dtParse (dtFormat d)).map some = some (some d)
    rw [dtParse_dtFormat d h]
    rfl

theorem cfParts_cloudflareJson (s : Session) (h : optValid s.cf_expires) :
    cfParts (cloudflareJson s) =
      some (s.cf_bm, s.cf_unique_visitor_id, s.cf_clearance, s.cf_expires) := by
  rw [cfParts, strField_bm]
  simp only [Option.bind_eq_bind, Option.some_bind]
  rw [strField_uvi]
  simp only [Option.bind_eq_bind, Option.some_bind]
  rw [strField_clearance]
  simp only [Option.bind_eq_bind, Option.some_bind]
  rw [dateField_cloudflareJson s h]
  simp only [Option.bind_eq_bind, Option.some_bind]

theorem session_from_json_to_json (s : Session) (h : s.validDates) :
    Session.from_json (Session.to_json s) = some s := by
  obtain ⟨hcf, hsess⟩ := h
  rw [Session.to_json, Session.from_json]
  rw [cfField_sessionJson]
  simp only [Option.bind_eq_bind, Option.some_bind]
  rw [userField_sessionJson]
  simp only [Option.bind_eq_bind, Option.some_bind]
  rw [cfParts_cloudflareJson s hcf]
  simp only [Option.bind_eq_bind, Option.some_bind]
  rw [dateField_sessionJson s hsess]
  simp only [Option.bind_eq_bind, Option.some_bind]
  rw [strField_token]
  simp only [Option.bind_eq_bind, Option.some_bind]
  rw [strField_ua]
  simp only [Option.bind_eq_bind, Option.some_bind]

/-! ### `utils/network.py` and `manager.py`: response status -/

/-- `utils.network.is_error_status`: `400 <= status < 600`. -/
def is_error_status (status : Nat) : Bool :=
  decide (400 ≤ status) && decide (status < 600)

/-- `manager.Response`, reduced to the observable the claims need: the HTTP
status attribute, which is `None` while the reply is unfinished or after an
abort. -/
structure Response where
  code : Option Nat
deriving DecidableEq

/-- `Response.ok`: `False` with no status code, otherwise the negation of
`is_error_status`. -/
def Response.ok (r : Response) : Bool :=
  match r.code with
  | none => false
  | some c => !is_error_status c

/-! ### `manager.py`: the cookie jar and `NetworkSession.clear_cookies` -/

/-- A cookie in the `QNetworkCookieJar`: Qt identifies cookies by name,
domain and path. -/
structure QNetworkCookie where
  name : String
  domain : String
  path : String
  value : String
deriving DecidableEq

/-- The nested `deletion_predicate` of `NetworkSession.clear_cookies`,
including the specificity checks that raise `ValueError`: name requires
domain and path, path requires domain. -/
def deletion_predicate (domain path name : Option String) (cookie : QNetworkCookie) :
    Except String Bool :=
  match name with
  | some n =>
    match domain, path with
    | some d, some p => .ok (cookie.name == n && cookie.domain == d && cookie.path == p)
    | _, _ => .error "Must specify domain and path if specifying name"
  | none =>
  match path with
  | some p =>
    match domain with
    | some d => .ok (cookie.domain == d && cookie.path == p)
    | none => .error "Must specify domain if specifying path"
  | none =>
  match domain with
  | some d => .ok (cookie.domain == d)
  | none => .ok true

/-- The cookie loop of `clear_cookies`: evaluate the predicate on each cookie
of the jar in turn (the first predicate exception propagates), delete the
matching ones, and record whether any deletion happened. -/
def clearCookiesAux (domain path name : Option String) :
    List QNetworkCookie → Except String (List QNetworkCookie × Bool)
  | [] => .ok ([], false)
  | c :: rest =>
    match deletion_predicate domain path name c with
    | .error e => .error e
    | .ok true => (clearCookiesAux domain path name rest).map fun p => (p.1, true)
    | .ok false => (clearCookiesAux domain path name rest).map fun p => (c :: p.1, p.2)

/-- `NetworkSession.clear_cookies(domain, path, name)`: returns the remaining
jar and the `any(results)` flag, or the `ValueError` text. -/
def NetworkSession.clear_cookies (jar : List QNetworkCookie)
    (domain path name : Option String) : Except String (List QNetworkCookie × Bool) :=
  clearCookiesAux domain path name jar

/-- `QNetworkCookieJar.insertCookie` via `NetworkSession.set_cookie`:
replaces a cookie with the same name, domain and path in place, otherwise
appends. -/
def insertCookie (jar : List QNetworkCookie) (c : QNetworkCookie) : List QNetworkCookie :=
  if jar.any fun x => x.name == c.name && x.domain == c.domain && x.path == c.path then
    jar.map fun x =>
      if x.name == c.name && x.domain == c.domain && x.path == c.path then c else x
  else
    jar ++ [c]

/-- `NetworkSession.cookies` is the dict comprehension name-to-value over all
cookies; a later cookie with the same name overwrites an earlier one. -/
def cookiesGet (jar : List QNetworkCookie) (name : String) : Option String :=
  jar.foldl (fun acc c => if c.name == name then some c.value else acc) none

/-- Look up the value of the cookie with the exact Qt identifier
(name, domain, path); the last insertion wins. -/
def jarFind (jar : List QNetworkCookie) (name domain path : String) : Option String :=
  jar.foldl
    (fun acc c => if c.name == name && c.domain == domain && c.path == path
      then some c.value else acc) none

/-! ### `manager.py`: `Request._prepare_body`

Byte strings are modelled as lists of byte values; `utf8Encode` is the
standard UTF-8 encoding used by Python's `str.encode('utf8')`. -/

/-- UTF-8 bytes of one character. -/
def utf8Bytes (c : Char) : List Nat :=
  let n := c.toNat
  if n < 0x80 then [n]
  else if n < 0x800 then [0xC0 + n / 0x40, 0x80 + n % 0x40]
  else if n < 0x10000 then [0xE0 + n / 0x1000, 0x80 + n / 0x40 % 0x40, 0x80 + n % 0x40]
  else [0xF0 + n / 0x40000, 0x80 + n / 0x1000 % 0x40, 0x80 + n / 0x40 % 0x40, 0x80 + n % 0x40]

/-- `str.encode('utf8')`. -/
def utf8Encode (s : String) : List Nat :=
  (s.toList.map utf8Bytes).flatten

/-- Uppercase hexadecimal digit. -/
def hexDigit (n : Nat) : Char :=
  if n < 10 then digitChar n else Char.ofNat (55 + n)

/-- A percent-escaped byte, `%XX` with uppercase hex as `urllib.parse.quote`
produces. -/
def percentByte (b : Nat) : String :=
  "%" ++ String.mk [hexDigit (b / 16), hexDigit (b % 16)]

/-- The characters `urllib.parse.quote_plus` never escapes. -/
def isUrlSafe (c : Char) : Bool :=
  c.isAlphanum || c == '_' || c == '.' || c == '-' || c == '~'

/-- `urllib.parse.quote_plus`: safe characters kept, space becomes `+`,
everything else percent-escaped bytewise over its UTF-8 encoding. -/
def quotePlus (s : String) : String :=
  String.join (s.toList.map fun c =>
    if isUrlSafe c then String.mk [c]
    else if c == ' ' then "+"
    else String.join ((utf8Bytes c).map percentByte))

/-- `urllib.parse.urlencode` over string pairs (as `utils.encode_url_params`):
`quote_plus`-escaped `key=value` entries joined by ampersands. -/
def encode_url_params (pairs : List (String × String)) : String :=
  String.intercalate "&" (pairs.map fun kv => quotePlus kv.1 ++ "=" ++ quotePlus kv.2)

/-- One escaped character of `json.dumps` output with the default
`ensure_ascii=True`: the two JSON metacharacters and control/non-ASCII
characters are escaped, printable ASCII passes through. -/
def jsonEscChar (c : Char) : String :=
  if c == '"' then "\\\""
  else if c == '\\' then "\\\\"
  else if c == '\n' then "\\n"
  else if c == '\t' then "\\t"
  else if c == '\r' then "\\r"
  else if c.toNat == 8 then "\\b"
  else if c.toNat == 12 then "\\f"
  else if c.toNat < 0x20 || c.toNat > 0x7E then
    if c.toNat < 0x10000 then
      "\\u" ++ String.mk ((padNum 4 (c.toNat)).map fun d => hexDigit d)
    else
      "\\u" ++ String.mk ((padNum 4 (0xD800 + (c.toNat - 0x10000) / 0x400)).map hexDigit) ++
        "\\u" ++ String.mk ((padNum 4 (0xDC00 + (c.toNat - 0x10000) % 0x400)).map hexDigit)
  else String.mk [c]

/-- A `json.dumps` string literal. -/
def jsonQuote (s : String) : String :=
  "\"" ++ String.join (s.toList.map jsonEscChar) ++ "\""

mutual

/-- `json.dumps` with its default separators (and `allow_nan=False`, which
only matters for floats this model does not contain). -/
def jsonDumps : Json → String
  | .null => "null"
  | .bool true => "true"
  | .bool false => "false"
  | .num n => toString n
  | .str s => jsonQuote s
  | .arr l => "[" ++ jsonDumpsArr l ++ "]"
  | .obj l => "\x7b" ++ jsonDumpsObj l ++ "\x7d"

/-- Array elements joined by the default `', '` separator. -/
def jsonDumpsArr : List Json → String
  | [] => ""
  | [x] => jsonDumps x
  | x :: y :: rest => jsonDumps x ++ ", " ++ jsonDumpsArr (y :: rest)

/-- Object entries joined by `', '`, keys and values separated by `': '`. -/
def jsonDumpsObj : List (String × Json) → String
  | [] => ""
  | [kv] => jsonQuote kv.1 ++ ": " ++ jsonDumps kv.2
  | kv :: kv2 :: rest => jsonQuote kv.1 ++ ": " ++ jsonDumps kv.2 ++ ", " ++
      jsonDumpsObj (kv2 :: rest)

end

/-- The `data` argument of a `Request` after `__init__` normalization: absent,
a string-pair mapping, or raw bytes. -/
inductive RequestData where
  | noData : RequestData
  | form : List (String × String) → RequestData
  | raw : List Nat → RequestData
deriving DecidableEq

/-- Python truthiness of the `data` attribute (`if self.data:`): an empty
dict and an empty byte string are falsy. -/
def dataTruthy : RequestData → Bool
  | .noData => false
  | .form pairs => !pairs.isEmpty
  | .raw b => !b.isEmpty

/-- `Request._prepare_body`: returns the prepared body and the request's own
header dict, to which `Content-Type` is added when a content type was chosen
and the exact key `'Content-Type'` is not already present (`self.headers` is
a plain `dict` at this point, so the membership test is case-sensitive). -/
def prepare_body (data : RequestData) (json : Option Json)
    (headers : List (String × String)) : Option (List Nat) × List (String × String) :=
  let bodyCt : Option (List Nat) × Option String :=
    if dataTruthy data then
      match data with
      | .form pairs =>
        (some (utf8Encode (encode_url_params pairs)), some "application/x-www-form-urlencoded")
      | .raw b => (some b, none)
      | .noData => (none, none)
    else
      match json with
      | some j => (some (utf8Encode (jsonDumps j)), some "application/json")
      | none => (none, none)
  match bodyCt.2 with
  | some ct =>
    if headers.any fun kv => kv.1 == "Content-Type" then (bodyCt.1, headers)
    else (bodyCt.1, headers ++ [("Content-Type", ct)])
  | none => (bodyCt.1, headers)

/-! ### `chatgpt.py`: the event-stream frame extraction of `send_message` -/

/-- Bytewise prefix test on character lists. -/
def isPrefixList : List Char → List Char → Bool
  | [], _ => true
  | _ :: _, [] => false
  | a :: as, b :: bs => a == b && isPrefixList as bs

/-- The scanner behind `pySplit`.  The `fuel` argument only bounds the number
of steps (each step consumes at least one character) so that the recursion is
structural and the function evaluates inside the kernel; `pySplit` passes the
input length, which is always enough. -/
def pySplitAux (sep : List Char) : Nat → List Char → List Char → List (List Char)
  | _, [], acc => [acc.reverse]
  | 0, l, acc => [acc.reverse ++ l]
  | fuel + 1, c :: rest, acc =>
    if isPrefixList sep (c :: rest) && !sep.isEmpty then
      acc.reverse :: pySplitAux sep fuel (List.drop (sep.length - 1) rest) []
    else
      pySplitAux sep fuel rest (c :: acc)

/-- Python `str.split(sep)` for a non-empty separator and no maxsplit, as
`send_message` uses it on the event stream: occurrences of the separator are
removed and the pieces between them returned, with empty pieces kept
(`''.split(sep) == ['']`). -/
def pySplit (s sep : String) : List String :=
  (pySplitAux sep.toList s.toList.length s.toList []).map String.mk

/-- Python negative indexing `xs[-k]`: defined exactly when the list has at
least `k` elements, `IndexError` otherwise. -/
def pyNegIdx {α : Type} (l : List α) (k : Nat) : Option α :=
  if k ≠ 0 ∧ k ≤ l.length then l[l.length - k]? else none

/-- Python `str.removeprefix`. -/
def removePrefixStr (s p : String) : String :=
  if isPrefixList p.toList s.toList then String.mk (s.toList.drop p.toList.length) else s

/-- The ASCII whitespace characters `str.strip()` removes (Python also strips
some non-ASCII whitespace, which the modelled values never contain). -/
def isPySpace (c : Char) : Bool :=
  c == ' ' || c == '\t' || c == '\n' || c == '\r' || c.toNat == 11 || c.toNat == 12

/-- Python `str.strip()`. -/
def pyStrip (s : String) : String :=
  String.mk (((s.toList.dropWhile isPySpace).reverse.dropWhile isPySpace).reverse)

/-- Lines 353-360 of `chatgpt.py`: split the response text on the
double-newline frame delimiter and take index `-3`; the `IndexError` is
converted into the malformed-stream `ValueError`. -/
def lastStream (text : String) : Except String String :=
  match pyNegIdx (pySplit text "\n\n") 3 with
  | some s => .ok s
  | none => .error ("Message response is not a text/event-stream: " ++ text)

/-- The JSON payload handed to `json.loads` by `send_message`: the selected
frame with its `'data: '` prefix removed and surrounding whitespace
stripped. -/
def replyPayload (text : String) : Except String String :=
  (lastStream text).map fun s => pyStrip (removePrefixStr s "data: ")

/-! ### `chatgpt.py`: Client state and the token lifecycle -/

/-- `Client.host`, fixed in `__init__`. -/
def host : String := "chat.openai.com"

/-- The name of the session-token cookie. -/
def sessionCookieName : String := "__Secure-next-auth.session-token"

/-- The Qt signals the Client emits that the claims observe. -/
inductive ClientEvent where
  | authenticationRequired : ClientEvent
  | signedOut : ClientEvent
deriving DecidableEq

/-- The mutable state a `Client` instance owns: its `Session` data, the
`NetworkSession` cookie jar and default headers, the access token, the
persisted `.session.json` file, and the signals emitted so far. -/
structure ClientState where
  session_data : Session
  jar : List QNetworkCookie
  headers : List (String × String)
  access_token : Option String
  sfile : Option Json
  events : List ClientEvent

/-- The value of one hexadecimal digit character, if it is one. -/
def hexDigitVal (c : Char) : Option Nat :=
  if '0' ≤ c ∧ c ≤ '9' then some (c.toNat - 48)
  else if 'A' ≤ c ∧ c ≤ 'F' then some (c.toNat - 55)
  else if 'a' ≤ c ∧ c ≤ 'f' then some (c.toNat - 87)
  else none

/-- `urllib.parse.unquote`, modelled bytewise: a `%XX` escape becomes the
character with that code, anything else passes through.  (Python decodes
multi-byte UTF-8 escape runs as one character; the token values in the claims
contain no percent escapes, where both coincide with the identity.) -/
def decodeUrlAux : Nat → List Char → List Char
  | 0, l => l
  | _, [] => []
  | fuel + 1, c :: rest =>
    if c == '%' then
      match rest with
      | a :: b :: rest2 =>
        match hexDigitVal a, hexDigitVal b with
        | some x, some y => Char.ofNat (16 * x + y) :: decodeUrlAux fuel rest2
        | _, _ => c :: decodeUrlAux fuel rest
      | _ => c :: decodeUrlAux fuel rest
    else c :: decodeUrlAux fuel rest

/-- `utils.decode_url` (`urllib.parse.unquote`).  As in `pySplit`, the fuel
argument only bounds the number of scanning steps, each of which consumes at
least one character. -/
def decode_url (s : String) : String := String.mk (decodeUrlAux s.toList.length s.toList)

/-- Python truthiness of the session token (`not self.session_token`): absent
or empty means no usable token. -/
def tokenTruthy : Option String → Bool
  | some s => s != ""
  | none => false

/-- `Client.set_cookie(name, value)`: insert-or-replace in the jar under the
client host and root path. -/
def Client.set_cookie (st : ClientState) (name value : String) : ClientState :=
  { st with jar := insertCookie st.jar ⟨name, host, "/", value⟩ }

/-- `Client.delete_cookie(name)`, i.e.
`clear_cookies(self.host, '/', name)`.  With all three arguments the
predicate never raises; the error branch is unreachable and keeps the model
total. -/
def Client.delete_cookie (jar : List QNetworkCookie) (name : String) : List QNetworkCookie :=
  match NetworkSession.clear_cookies jar (some host) (some "/") (some name) with
  | .ok p => p.1
  | .error _ => jar

/-- `Client.save_session_data`: dump `session_data.to_json` to the session
file (the hide/unhide calls around the write do not change the content). -/
def save_session_data (st : ClientState) : ClientState :=
  { st with sfile := some (Session.to_json st.session_data) }

/-- The `session_token` setter: URL-decode, store the stripped value in
`session_data`, write the (unstripped) decoded value into the cookie jar, and
persist the session file. -/
def session_token_set (st : ClientState) (value : String) : ClientState :=
  let value := decode_url value
  let st := { st with session_data :=
    { st.session_data with session_token := some (pyStrip value) } }
  let st := Client.set_cookie st sessionCookieName value
  save_session_data st

/-- The `session_token` deleter: clear the session data in place, delete the
session cookie, unlink the persisted file, and emit `signedOut`. -/
def session_token_del (st : ClientState) : ClientState :=
  let st := { st with session_data := st.session_data.clear }
  let st := { st with jar := Client.delete_cookie st.jar sessionCookieName }
  let st := { st with sfile := none }
  { st with events := st.events ++ [ClientEvent.signedOut] }

/-- `CaseInsensitiveDict` assignment on the session headers: a key equal up
to case is overwritten in place (keeping the new casing), otherwise the entry
is appended. -/
def headerSet (hs : List (String × String)) (k v : String) : List (String × String) :=
  if hs.any fun kv => kv.1.toLower == k.toLower then
    hs.map fun kv => if kv.1.toLower == k.toLower then (k, v) else kv
  else hs ++ [(k, v)]

/-- The `access_token` setter: URL-decode, strip, and mirror into the
`Authorization` header. -/
def access_token_set (st : ClientState) (value : String) : ClientState :=
  let v := pyStrip (decode_url value)
  { st with
    access_token := some v
    headers := headerSet st.headers "Authorization" ("Bearer " ++ v) }

/-- The session-endpoint reply `refresh_auth` observes through
`self._get('api/auth/session')`: the wall clock, the cookies the reply sets
in the jar, and the `ETag`/`user`/`accessToken`/`expires` payload fields. -/
structure RefreshEnv where
  now : PyDateTime
  setCookies : List QNetworkCookie
  etag : Option String
  userJson : Option Json
  accessToken : Option String
  expires : Option String

/-- The token resynchronization that `_get` and `refresh_auth` perform:
`if session_token := self.session.cookies.get('__Secure-next-auth.session-token'):
self.session_token = session_token`. -/
def syncTokenFromJar (st : ClientState) : ClientState :=
  match cookiesGet st.jar sessionCookieName with
  | some t => if t != "" then session_token_set st t else st
  | none => st

/-- `if etag := response.headers.get('ETag'): headers['If-None-Match'] = etag`. -/
def applyEtag (env : RefreshEnv) (st : ClientState) : ClientState :=
  match env.etag with
  | some e => if e != "" then { st with headers := headerSet st.headers "If-None-Match" e }
      else st
  | none => st

/-- `if user := response.json().get('user'):
session_data.user = User.from_json(user)`; a malformed user object makes
`User.from_json` raise, which propagates out of `refresh_auth`. -/
def applyUserUpdate (env : RefreshEnv) (st : ClientState) : Except String ClientState :=
  match env.userJson with
  | some uj =>
    if jTruthy uj then
      match User.from_json uj with
      | some u => .ok { st with session_data := { st.session_data with user := some u } }
      | none => .error "User.from_json raised"
    else .ok st
  | none => .ok st

/-- `if access_token := response.json().get('accessToken'): ...`. -/
def applyAccessToken (env : RefreshEnv) (st : ClientState) : ClientState :=
  match env.accessToken with
  | some a => if a != "" then access_token_set st a else st
  | none => st

/-- `if session_expire := response.json().get('expires'):
session_expires = strptime(session_expire, DATE_FORMAT)`; a malformed string
makes `strptime` raise. -/
def applyExpires (env : RefreshEnv) (st : ClientState) : Except String ClientState :=
  match env.expires with
  | some es =>
    if es != "" then
      match dtParse es with
      | some d => .ok { st with session_data :=
          { st.session_data with session_expires := some d } }
      | none => .error "strptime raised"
    else .ok st
  | none => .ok st

/-- `Client.refresh_auth`: with no usable token or an expired one, emit
`authenticationRequired`, delete the session if a (stale) token exists, and
return `False`; otherwise call the session endpoint (whose reply is supplied
by `env`) and fold its updates into the state, returning `True`.  The
one-time first-request warm-up of `_get` is not part of this model (states
are post-bootstrap), and the 401-retry of `_get` does not alter which updates
are applied here. -/
def refresh_auth (env : RefreshEnv) (st : ClientState) : Except String (ClientState × Bool) :=
  if !tokenTruthy st.session_data.session_token ||
      (match st.session_data.session_expires with
        | some e => PyDateTime.lt e env.now
        | none => false) then
    let st1 := { st with events := st.events ++ [ClientEvent.authenticationRequired] }
    let st2 := if tokenTruthy st1.session_data.session_token then session_token_del st1 else st1
    .ok (st2, false)
  else
    let st1 := { st with jar := env.setCookies.foldl insertCookie st.jar }
    let st2 := syncTokenFromJar st1
    let st3 := applyEtag env st2
    match applyUserUpdate env st3 with
    | .error e => .error e
    | .ok st4 =>
      let st5 := applyAccessToken env st4
      match applyExpires env st5 with
      | .error e => .error e
      | .ok st6 => .ok (syncTokenFromJar st6, true)

/-- `Client.new_session(session)`: replace the in-memory session data with
the authenticator's session wholesale, then `refresh_auth`. -/
def new_session (env : RefreshEnv) (st : ClientState) (session : Session) :
    Except String ClientState :=
  match refresh_auth env { st with session_data := session } with
  | .ok p => .ok p.1
  | .error e => .error e

/-! ### `chatgpt.py`: the 401 retry discipline of `Client._get` -/

/-- The environment of one `_get` execution: the status code the server
answers with on the i-th GET this execution issues for the requested path,
whether `self.access_token` is set, and what `refresh_auth()` returns when
invoked. -/
structure GetEnv where
  resp : Nat → Option Nat
  accessTokenSet : Bool
  refreshOk : Bool

/-- Python truthiness of `response.code`. -/
def codeTruthy : Option Nat → Bool
  | some c => c != 0
  | none => false

/-- The retry skeleton of `Client._get(path, update_auth_on_401)`: issue the
GET; on an error status of 401 with `update_auth_on_401` set and an access
token present, retry the same GET exactly once after a successful
`refresh_auth()`, with `update_auth_on_401=False`.  Returns the surfaced
response code and the number of GETs issued for the path.  (The first-request
warm-up GET targets the fixed `'chat'` path before any 401 handling and is
outside this model; the side effects of the cookie resynchronization do not
change the retry control flow.) -/
def clientGet (env : GetEnv) : Bool → Nat → Option Nat × Nat
  | true, k =>
    let code := env.resp k
    if codeTruthy code && !(Response.ok ⟨code⟩) then
      if code == some 401 && env.accessTokenSet then
        if env.refreshOk then
          let r := clientGet env false (k + 1)
          (r.1, 1 + r.2)
        else (code, 1)
      else (code, 1)
    else (code, 1)
  | false, k =>
    let code := env.resp k
    if codeTruthy code && !(Response.ok ⟨code⟩) then
      (code, 1)
    else (code, 1)
termination_by u _ => if u then 1 else 0
decreasing_by simp

/-! ### `structures.py` and `chatgpt.py`: conversations and `send_message` -/

/-- `structures.Message`; the UUID is modelled as a number (identity is all
the claims use). -/
structure Message where
  uuid : Nat
  text : Option String
  role : String
deriving DecidableEq

/-- `Message()` with its defaults: fresh uuid4, no text, role `'user'`. -/
def Message.default (u : Nat) : Message := ⟨u, none, "user"⟩

/-- `structures.Conversation`. -/
structure Conversation where
  uuid : Option Nat
  messages : List Message
deriving DecidableEq

/-- `structures.Action` (the `type` field defaults to `'variant'` in this
revision). -/
structure Action where
  model : String
  conversation : Conversation
  messages : List Message
  parent : Message
  type : String
deriving DecidableEq

/-- The successful round trip of one `send_message` as seen from the network:
the uuid4 values drawn for the outgoing and synthetic-root messages, the
reply message parsed from the stream payload, and the server's conversation
id. -/
structure SendEnv where
  newMsgUuid : Nat
  rootUuid : Nat
  replyMessage : Message
  conversationId : Nat

/-- The `Action` built by `send_message`: chained off the conversation's last
message, or a synthetic default `Message()` when the conversation is empty. -/
def actionOf (env : SendEnv) (model0 text : String) (conv : Conversation) : Action :=
  let parent := match conv.messages.getLast? with
    | some m => m
    | none => Message.default env.rootUuid
  ⟨model0, conv, [⟨env.newMsgUuid, some text, "user"⟩], parent, "variant"⟩

/-- `Client.send_message` on a successful exchange: append the sent message
and the received reply in order, and assign the server conversation id if the
conversation does not have one yet. -/
def send_message (env : SendEnv) (model0 text : String) (conv : Conversation) :
    Conversation × Message :=
  let action := actionOf env model0 text conv
  let messages := conv.messages ++ action.messages ++ [env.replyMessage]
  let uuid := match conv.uuid with
    | some u => some u
    | none => some env.conversationId
  (⟨uuid, messages⟩, env.replyMessage)

/-- A sequence of successful sends against the same conversation. -/
def sendMany (model0 : String) : List (SendEnv × String) → Conversation → Conversation
  | [], c => c
  | (env, txt) :: rest, c => sendMany model0 rest (send_message env model0 txt c).1

/-! ### `auth.py`: the Authenticator handshake -/

/-- The distinct raise sites of `Authenticator._authenticate` and its
`cloudflare_clearance` sub-procedure. -/
inductive AuthError where
  | missingCredentials : AuthError
  | webdriverStartFailed : AuthError
  | csrfMissing : AuthError
  | signinBlocked : AuthError
  | signinNoUrl : AuthError
  | redirectFailed : String → AuthError
  | stateMissing : String → AuthError
  | loginPageFailed : AuthError
  | captchaRenderError : AuthError
  | invalidEmail : AuthError
  | wrongPassword : AuthError
  | finalStateMissing : AuthError
  | resumeFailed : AuthError
  | sessionTokenMissing : AuthError
  | sessionUserMalformed : AuthError
  | sessionExpiresMalformed : AuthError
deriving DecidableEq

/-- One reply of the auth provider as far as the handshake inspects it. -/
structure HttpLite where
  status : Nat
  contentType : String
  text : String

/-- What `cloudflare_clearance` harvests from the automated browser when it
starts (the busy-wait guarantees a user agent is captured before return);
`expiry` stands for the `now + 1h` clearance expiry the code computes. -/
structure CFData where
  bm : Option String
  clearance : Option String
  expiry : PyDateTime
  userAgent : String

/-- The environment of one `authenticate()` attempt: the wall clock and the
outcome of each network interaction of steps 1-10. -/
structure AuthEnv where
  now : PyDateTime
  cfOutcome : Except Unit CFData
  csrfResp : HttpLite
  csrfToken : Option String
  signinResp : HttpLite
  signinUrl : Option String
  redirectResp : HttpLite
  loginPageResp : HttpLite
  captchaImage : Option (Except Unit String)
  identifierResp : HttpLite
  passwordResp : HttpLite
  resumeResp : HttpLite
  sessionCookie : Option String
  sessionUser : Option User
  sessionExpires : Option String
  finalCfBm : Option String
  finalCfClearance : Option String
  finalCfExpiry : PyDateTime

/-- Python `in` on strings (`'json' in response.headers['Content-Type']`). -/
def strContains (s sub : String) : Bool :=
  sub == "" || (s.splitOn sub).length != 1

/-- `_STATE_PATTERN.findall(text)[0].split('"')[0]`: the capture of the first
`state=` occurrence runs to the end of its line, then everything before the
first double quote is kept; no occurrence raises `IndexError`. -/
def stateFromText (text : String) : Option String :=
  match text.splitOn "state=" with
  | _ :: after :: _ =>
    some ((((after.splitOn "\n").headD "").splitOn "\"").headD "")
  | _ => none

/-- Step 0: `if not self.username or not self.password` (absent or empty). -/
def checkCredentials (username password : Option String) : Except AuthError (String × String) :=
  match username, password with
  | some u, some p =>
    if u == "" || p == "" then .error .missingCredentials else .ok (u, p)
  | _, _ => .error .missingCredentials

/-- Step 1: re-derive the bot-challenge clearance through the automated
browser if the current one is invalid; a webdriver start failure raises. -/
def ensureClearance (sd : Session) (env : AuthEnv) : Except AuthError Session :=
  if sd.is_valid_clearance env.now then .ok sd
  else
    match env.cfOutcome with
    | .error _ => .error .webdriverStartFailed
    | .ok cf =>
      .ok { sd with
        cf_bm := match cf.bm with | some v => some v | none => sd.cf_bm
        cf_clearance := match cf.clearance with | some v => some v | none => sd.cf_clearance
        cf_expires := match cf.clearance with | some _ => some cf.expiry | none => sd.cf_expires
        user_agent := some cf.userAgent }

/-- Step 2: fetch the csrf token; a non-JSON reply or a null token raises. -/
def fetchCsrf (env : AuthEnv) : Except AuthError String :=
  if strContains env.csrfResp.contentType "json" then
    match env.csrfToken with
    | some c => .ok c
    | none => .error .csrfMissing
  else .error .csrfMissing

/-- Step 3: POST the csrf token to start the auth0 sign-in; a non-200 or
non-JSON reply raises (blocked / rate limited), a missing `url` key raises. -/
def startSignin (env : AuthEnv) : Except AuthError String :=
  if env.signinResp.status != 200 || !strContains env.signinResp.contentType "json" then
    .error .signinBlocked
  else
    match env.signinUrl with
    | some u => .ok u
    | none => .error .signinNoUrl

/-- Steps 4: follow the provider's redirect and pattern-match the login
`state` out of the response body. -/
def obtainState (env : AuthEnv) (url : String) : Except AuthError String :=
  if env.redirectResp.status != 302 then .error (.redirectFailed url)
  else
    match stateFromText env.redirectResp.text with
    | some s => .ok s
    | none => .error (.stateMissing url)

/-- Step 5: GET the state's login page; when it embeds a captcha image,
decoding may fail (render error), otherwise the handshake suspends until the
solved text arrives. -/
def solveCaptchaStep (env : AuthEnv) : Except AuthError (Option String) :=
  if env.loginPageResp.status != 200 then .error .loginPageFailed
  else
    match env.captchaImage with
    | none => .ok none
    | some (.error _) => .error .captchaRenderError
    | some (.ok txt) => .ok (some txt)

/-- Steps 6-7: POST the username (plus any solved captcha), then the
password; non-302 replies mean an invalid account resp. wrong credentials,
and the new `state` is pattern-matched out of the password reply. -/
def submitCredentials (env : AuthEnv) : Except AuthError String :=
  if env.identifierResp.status != 302 then .error .invalidEmail
  else if env.passwordResp.status != 302 then .error .wrongPassword
  else
    match stateFromText env.passwordResp.text with
    | some s => .ok s
    | none => .error .finalStateMissing

/-- Steps 8-10: resume authorization, require the issued session-token
cookie, and populate the session from the verification reply (a malformed
user object or expiry string raises during parsing). -/
def finalizeSession (env : AuthEnv) (sd : Session) : Except AuthError Session :=
  if env.resumeResp.status != 200 then .error .resumeFailed
  else
    match env.sessionCookie with
    | none => .error .sessionTokenMissing
    | some tok =>
      if tok == "" then .error .sessionTokenMissing
      else
        match env.sessionUser with
        | none => .error .sessionUserMalformed
        | some u =>
          match env.sessionExpires with
          | none => .error .sessionExpiresMalformed
          | some es =>
            match dtParse es with
            | none => .error .sessionExpiresMalformed
            | some exp =>
              .ok { sd with
                user := some u
                cf_bm := env.finalCfBm
                cf_clearance := env.finalCfClearance
                cf_expires := some env.finalCfExpiry
                session_expires := some exp
                session_token := some tok }

/-- `Authenticator._authenticate`: the strictly sequential handshake; the
first failing step aborts the whole attempt.  (The url-encoded request
payloads do not influence which branch is taken and are not modelled.) -/
def authSteps (username password : Option String) (sd : Session) (env : AuthEnv) :
    Except AuthError Session := do
  let _cred ← checkCredentials username password
  let sd2 ← ensureClearance sd env
  let _csrf ← fetchCsrf env
  let url ← startSignin env
  let _state ← obtainState env url
  let _captcha ← solveCaptchaStep env
  let _newState ← submitCredentials env
  finalizeSession env sd2

/-- The terminal notifications of one `authenticate()` call. -/
inductive AuthEvent where
  | authenticationFailed : Option String → AuthError → AuthEvent
  | authenticationSuccessful : Session → AuthEvent
deriving DecidableEq

/-- `Authenticator.authenticate`: run `_authenticate` under
`try/except Exception`, emitting `authenticationFailed(username, e)` for any
exception and `authenticationSuccessful(session)` on success (the success
signal is emitted by the last line of `_authenticate` itself). -/
def authenticate (username password : Option String) (sd : Session) (env : AuthEnv) :
    List AuthEvent :=
  match authSteps username password sd env with
  | .ok sd2 => [.authenticationSuccessful sd2]
  | .error e => [.authenticationFailed username e]

/-! ### Claim theorems -/

/-- C10: `Response.ok` returns `False` whenever the reply has no HTTP status
code (unfinished or aborted, so `code` is `None`); with a status code
present, `ok` holds exactly when the code lies outside the error range
400-599. -/
theorem response_ok_outside_error_range :
    Response.ok ⟨none⟩ = false ∧
      ∀ c : Nat, (Response.ok ⟨some c⟩ = true ↔ ¬(400 ≤ c ∧ c ≤ 599)) := by
  refine ⟨rfl, fun c => ?_⟩
  simp only [Response.ok, is_error_status, Bool.not_eq_true', Bool.and_eq_false_iff,
    decide_eq_false_iff_not, not_le, not_lt]
  constructor
  · intro h hc
    omega
  · intro h
    omega

/-- C8: evaluating `clear_cookies` with out-of-order specificity (`name`
without `domain`/`path`).  On the empty cookie jar the per-cookie predicate
is never evaluated, so no `ValueError` is raised and `False` is returned; on
any non-empty jar the specificity `ValueError` is raised.  The claim (and the
method's own docstring) promise the `ValueError` for every jar state. -/
theorem clear_cookies_empty_jar_skips_check :
    NetworkSession.clear_cookies ([] : List QNetworkCookie) none none
        (some "session") = .ok ([], false) ∧
      ∀ c : QNetworkCookie,
        NetworkSession.clear_cookies [c] none none (some "session") =
          .error "Must specify domain and path if specifying name" :=
  ⟨rfl, fun _ => rfl⟩

/-- C1: `send_message` splits the response body on the double-newline frame
delimiter; fewer than 3 frames fail with the malformed-stream `ValueError`,
3 or more frames parse the reply from the third-from-last frame with its
`'data: '` prefix stripped, and the 3-frame body (data frame, `[DONE]`
frame, empty frame) parses successfully. -/
theorem send_message_frame_extraction :
    (∀ text : String, (pySplit text "\n\n").length < 3 →
      lastStream text = .error ("Message response is not a text/event-stream: " ++ text)) ∧
    (∀ text : String, 3 ≤ (pySplit text "\n\n").length →
      ∃ s, (pySplit text "\n\n")[(pySplit text "\n\n").length - 3]? = some s ∧
        lastStream text = .ok s ∧
        replyPayload text = .ok (pyStrip (removePrefixStr s "data: "))) ∧
    replyPayload "data: R\n\n[DONE]\n\n" = .ok "R" := by
  refine ⟨?_, ?_, rfl⟩
  · intro text h
    have hc : ¬(3 ≤ (pySplit text "\n\n").length) := by omega
    simp [lastStream, pyNegIdx, hc]
  · intro text h
    cases hq : (pySplit text "\n\n")[(pySplit text "\n\n").length - 3]? with
    | none =>
      exfalso
      have := List.getElem?_eq_none_iff.mp hq
      omega
    | some s =>
      have hc : 3 ≠ 0 ∧ 3 ≤ (pySplit text "\n\n").length := ⟨by omega, h⟩
      refine ⟨s, rfl, ?_, ?_⟩
      · simp [lastStream, pyNegIdx, hc, hq]
      · simp [replyPayload, lastStream, pyNegIdx, hc, hq, Except.map]

/-- Witness for C1: a 1-frame body raises the malformed-stream error, and the
3-frame body parses its data frame. -/
theorem send_message_frame_extraction_witness :
    lastStream "nope" = .error ("Message response is not a text/event-stream: " ++ "nope") ∧
      replyPayload "data: R\n\n[DONE]\n\n" = .ok "R" :=
  ⟨send_message_frame_extraction.1 "nope" (by decide),
    send_message_frame_extraction.2.2⟩

/-- C2: `_get` never issues the same GET more than twice: with
`update_auth_on_401=False` exactly one GET happens; a 401 with an access
token present and a successful `refresh_auth()` triggers exactly one retry
whose response (401 included) is surfaced; a failed refresh surfaces the
first 401 without retrying. -/
theorem get_401_retry_discipline :
    (∀ (env : GetEnv) (u : Bool) (k : Nat), (clientGet env u k).2 ≤ 2) ∧
    (∀ (env : GetEnv) (k : Nat), (clientGet env false k).2 = 1) ∧
    (∀ env : GetEnv, env.resp 0 = some 401 → env.accessTokenSet = true →
      env.refreshOk = true → clientGet env true 0 = (env.resp 1, 2)) ∧
    (∀ env : GetEnv, env.resp 0 = some 401 → env.accessTokenSet = true →
      env.refreshOk = false → clientGet env true 0 = (some 401, 1)) := by
  have hfalse : ∀ (env : GetEnv) (k : Nat), clientGet env false k = (env.resp k, 1) := by
    intro env k
    simp [clientGet]
  refine ⟨?_, fun env k => by rw [hfalse], ?_, ?_⟩
  · intro env u k
    match u with
    | false => rw [hfalse]; omega
    | true =>
      simp only [clientGet]
      split
      · split
        · split
          · simp [hfalse]
          · simp
        · simp
      · simp
  · intro env h1 h2 h3
    simp [clientGet, h1, h2, h3, codeTruthy, Response.ok, is_error_status, hfalse]
  · intro env h1 h2 h3
    simp [clientGet, h1, h2, h3, codeTruthy, Response.ok, is_error_status]

/-- The environment of a client that keeps receiving 401 with a succeeding
refresh. -/
def c2env : GetEnv := ⟨fun _ => some 401, true, true⟩

/-- Witness for C2: with persistent 401 responses and a succeeding refresh,
exactly two GETs are issued and the second 401 is surfaced. -/
theorem get_401_retry_discipline_witness :
    clientGet c2env true 0 = (some 401, 2) :=
  get_401_retry_discipline.2.2.1 c2env rfl rfl rfl

/-- C4: `authenticate()` emits exactly one terminal notification; whenever
the sequential handshake `_authenticate` fails at any step, the failure is
caught and converted into `authenticationFailed(username, error)` instead of
propagating, and success emits `authenticationSuccessful`. -/
theorem authenticate_converts_all_failures :
    ∀ (u p : Option String) (sd : Session) (env : AuthEnv),
      (authenticate u p sd env).length = 1 ∧
      ((∃ e, authSteps u p sd env = .error e ∧
          authenticate u p sd env = [.authenticationFailed u e]) ∨
        (∃ s2, authSteps u p sd env = .ok s2 ∧
          authenticate u p sd env = [.authenticationSuccessful s2])) := by
  intro u p sd env
  cases h : authSteps u p sd env with
  | ok s2 => exact ⟨by simp [authenticate, h], Or.inr ⟨s2, rfl, by simp [authenticate, h]⟩⟩
  | error e => exact ⟨by simp [authenticate, h], Or.inl ⟨e, rfl, by simp [authenticate, h]⟩⟩

/-- C3: `Session.from_json` inverts `Session.to_json` on every session whose
datetime fields are well formed (as every Python `datetime` is), and
`to_json` always writes the full five-key layout, serializing absent
optional fields as JSON `null` (the absent `user` as the empty object) —
never as omitted keys. -/
theorem session_json_round_trip :
    (∀ s : Session, s.validDates → Session.from_json (Session.to_json s) = some s) ∧
    (∀ s : Session, (sessionJson s).map Prod.fst =
      ["user", "cloudflare", "expires", "token", "user_agent"]) ∧
    (∀ s : Session, (cloudflareJson s).map Prod.fst =
      ["bm", "unique_visitor_id", "clearance", "expires"]) ∧
    (∀ s : Session, s.session_token = none →
      jLookup (sessionJson s) "token" = some Json.null) ∧
    (∀ s : Session, s.user_agent = none →
      jLookup (sessionJson s) "user_agent" = some Json.null) ∧
    (∀ s : Session, s.session_expires = none →
      jLookup (sessionJson s) "expires" = some Json.null) ∧
    (∀ s : Session, s.user = none →
      jLookup (sessionJson s) "user" = some (Json.obj [])) := by
  refine ⟨session_from_json_to_json, fun s => rfl, fun s => rfl, ?_, ?_, ?_, ?_⟩
  · intro s h
    simp only [sessionJson]
    rw [h]
    rfl
  · intro s h
    simp only [sessionJson]
    rw [h]
    rfl
  · intro s h
    simp only [sessionJson]
    rw [h]
    rfl
  · intro s h
    simp only [sessionJson]
    rw [h]
    rfl

/-- A fully populated session used as a round-trip witness. -/
def c3s : Session :=
  ⟨some ⟨"uid", "uname", "mail", "img", "pic", ["g1", "g2"], ["f1"]⟩,
    some "bm0", some "uv0", some "cl0", some ⟨2023, 1, 2, 3, 4, 5, 6⟩,
    some ⟨2023, 2, 3, 4, 5, 6, 7⟩, some "tok0", some "ua0"⟩

/-- Witness for C3: the round trip on a concrete populated session. -/
theorem session_json_round_trip_witness :
    c3s.validDates ∧ Session.from_json (Session.to_json c3s) = some c3s :=
  ⟨by decide, session_json_round_trip.1 c3s (by decide)⟩

/-- C6: every successful `send_message` appends exactly the sent message and
the received reply, in that order; a conversation id, once set, is never
changed by later sends, and an unset id is assigned from the server reply;
the conversation's last message is the parent of the next outgoing Action;
N successful sends from an empty conversation leave exactly 2N messages. -/
theorem conversation_append_invariants :
    (∀ (env : SendEnv) (m t : String) (c : Conversation),
      (send_message env m t c).1.messages =
        c.messages ++ [⟨env.newMsgUuid, some t, "user"⟩, env.replyMessage]) ∧
    (∀ (env : SendEnv) (m t : String) (c : Conversation),
      (send_message env m t c).1.messages.length = c.messages.length + 2) ∧
    (∀ (env : SendEnv) (m t : String) (c : Conversation) (u : Nat),
      c.uuid = some u → (send_message env m t c).1.uuid = some u) ∧
    (∀ (env : SendEnv) (m t : String) (c : Conversation),
      c.uuid = none → (send_message env m t c).1.uuid = some env.conversationId) ∧
    (∀ (env : SendEnv) (m t : String) (c : Conversation) (last : Message),
      c.messages.getLast? = some last → (actionOf env m t c).parent = last) ∧
    (∀ (m : String) (sends : List (SendEnv × String)),
      (sendMany m sends ⟨none, []⟩).messages.length = 2 * sends.length) ∧
    (∀ (m : String) (sends : List (SendEnv × String)) (c : Conversation) (u : Nat),
      c.uuid = some u → (sendMany m sends c).uuid = some u) := by
  have happ : ∀ (env : SendEnv) (m t : String) (c : Conversation),
      (send_message env m t c).1.messages =
        c.messages ++ [⟨env.newMsgUuid, some t, "user"⟩, env.replyMessage] := by
    intro env m t c
    simp [send_message, actionOf]
  have hlen : ∀ (m : String) (sends : List (SendEnv × String)) (c : Conversation),
      (sendMany m sends c).messages.length = c.messages.length + 2 * sends.length := by
    intro m sends
    induction sends with
    | nil => intro c; simp [sendMany]
    | cons p rest ih =>
      intro c
      obtain ⟨env, txt⟩ := p
      simp only [sendMany]
      rw [ih, happ]
      simp [List.length_append]
      omega
  have huuid : ∀ (m : String) (sends : List (SendEnv × String)) (c : Conversation) (u : Nat),
      c.uuid = some u → (sendMany m sends c).uuid = some u := by
    intro m sends
    induction sends with
    | nil => intro c u h; simpa [sendMany] using h
    | cons p rest ih =>
      intro c u h
      obtain ⟨env, txt⟩ := p
      simp only [sendMany]
      exact ih _ u (by simp [send_message, h])
  refine ⟨happ, ?_, ?_, ?_, ?_, ?_, huuid⟩
  · intro env m t c
    rw [happ]
    simp
  · intro env m t c u h
    simp [send_message, h]
  · intro env m t c h
    simp [send_message, h]
  · intro env m t c last h
    simp [actionOf, h]
  · intro m sends
    rw [hlen]
    simp

/-- A concrete successful exchange used as a witness. -/
def c6env : SendEnv := ⟨1, 2, ⟨9, some "re", "assistant"⟩, 7⟩

/-- Witness for C6: a conversation whose id is already set keeps it across a
send. -/
theorem conversation_append_invariants_witness :
    (⟨some 5, []⟩ : Conversation).uuid = some 5 ∧
      (send_message c6env "model" "hi" ⟨some 5, []⟩).1.uuid = some 5 :=
  ⟨rfl, conversation_append_invariants.2.2.1 c6env "model" "hi" ⟨some 5, []⟩ 5 rfl⟩

/-- Success projection of an `Except` (the modelled methods raise otherwise). -/
def exceptOk {ε α : Type} : Except ε α → Option α
  | .ok a => some a
  | .error _ => none

/-- A session holding an expired token. -/
def c5sd : Session :=
  { Session.empty with
    session_token := some "tok"
    session_expires := some ⟨2022, 12, 1, 0, 0, 0, 0⟩ }

/-- A client state holding the expired session, its cookie, and a persisted
session file. -/
def c5st : ClientState :=
  ⟨c5sd, [⟨sessionCookieName, host, "/", "tok"⟩], [], none,
    some (Session.to_json c5sd), []⟩

/-- A refresh environment whose wall clock lies after the expiry. -/
def c5env : RefreshEnv := ⟨⟨2023, 1, 1, 0, 0, 0, 0⟩, [], none, none, none, none⟩

/-- C5 counterexample: a `refresh_auth` on a state with an expired session
token does return `False` with the authentication-required notification, but
it is not a no-op — it clears the session data, deletes the session cookie
and the persisted file, and emits `signedOut`. -/
theorem refresh_auth_expired_token_clears_state :
    ((exceptOk (refresh_auth c5env c5st)).map fun p =>
        (p.2, p.1.session_data.session_token, p.1.sfile.isNone, p.1.jar, p.1.events)) =
      some (false, none, true, [],
        [ClientEvent.authenticationRequired, ClientEvent.signedOut]) ∧
    c5st.session_data.session_token = some "tok" ∧
    c5st.sfile.isSome = true ∧ c5st.jar ≠ [] := by
  refine ⟨rfl, rfl, rfl, by decide⟩

/-- C5 (amended): with no usable token, `refresh_auth` emits the
authentication-required notification and returns `False` touching nothing
but the emitted-events log; with a present-but-expired token it additionally
deletes the session — clearing the session data, the session cookie and the
persisted file and emitting `signedOut` — before returning `False`. -/
theorem refresh_auth_failure_paths :
    (∀ (env : RefreshEnv) (st : ClientState),
      tokenTruthy st.session_data.session_token = false →
      refresh_auth env st =
        .ok ({ st with events := st.events ++ [ClientEvent.authenticationRequired] }, false)) ∧
    (∀ (env : RefreshEnv) (st : ClientState) (e0 : PyDateTime),
      tokenTruthy st.session_data.session_token = true →
      st.session_data.session_expires = some e0 →
      PyDateTime.lt e0 env.now = true →
      refresh_auth env st =
        .ok (session_token_del
          { st with events := st.events ++ [ClientEvent.authenticationRequired] }, false) ∧
      (session_token_del
        { st with events := st.events ++ [ClientEvent.authenticationRequired] }).session_data =
        Session.empty ∧
      (session_token_del
        { st with events := st.events ++ [ClientEvent.authenticationRequired] }).sfile = none ∧
      (session_token_del
        { st with events := st.events ++ [ClientEvent.authenticationRequired] }).events =
        st.events ++ [ClientEvent.authenticationRequired, ClientEvent.signedOut]) := by
  constructor
  · intro env st h
    simp [refresh_auth, h]
  · intro env st e0 h1 h2 h3
    refine ⟨?_, rfl, rfl, ?_⟩
    · simp [refresh_auth, h1, h2, h3]
    · simp [session_token_del]

/-- A client state with no token at all. -/
def c5nt : ClientState := ⟨Session.empty, [], [], none, none, []⟩

/-- Witness for C5 (amended): a tokenless refresh only emits the
notification and fails. -/
theorem refresh_auth_failure_paths_witness :
    tokenTruthy c5nt.session_data.session_token = false ∧
      refresh_auth c5env c5nt =
        .ok ({ c5nt with events := [ClientEvent.authenticationRequired] }, false) :=
  ⟨rfl, refresh_auth_failure_paths.1 c5env c5nt rfl⟩

theorem mem_insertCookie_self (jar : List QNetworkCookie) (c : QNetworkCookie) :
    c ∈ insertCookie jar c := by
  unfold insertCookie
  by_cases hany :
      (jar.any fun x => x.name == c.name && x.domain == c.domain && x.path == c.path) = true
  · rw [if_pos hany]
    obtain ⟨y, hy, hp⟩ := List.any_eq_true.mp hany
    exact List.mem_map.mpr ⟨y, hy, by rw [if_pos hp]⟩
  · rw [if_neg hany]
    simp

theorem insertCookie_value (jar : List QNetworkCookie) (c : QNetworkCookie) :
    ∀ x ∈ insertCookie jar c,
      x.name = c.name → x.domain = c.domain → x.path = c.path → x = c := by
  intro x hx h1 h2 h3
  unfold insertCookie at hx
  by_cases hany :
      (jar.any fun y => y.name == c.name && y.domain == c.domain && y.path == c.path) = true
  · rw [if_pos hany] at hx
    obtain ⟨y, hy, hmap⟩ := List.mem_map.mp hx
    by_cases hp : (y.name == c.name && y.domain == c.domain && y.path == c.path) = true
    · rw [if_pos hp] at hmap
      exact hmap.symm
    · rw [if_neg hp] at hmap
      subst hmap
      simp [h1, h2, h3] at hp
  · rw [if_neg hany] at hx
    rcases List.mem_append.mp hx with hin | hone
    · exfalso
      apply hany
      refine List.any_eq_true.mpr ⟨x, hin, ?_⟩
      simp [h1, h2, h3]
    · simpa using hone

theorem clear_cookies_all_args (jar : List QNetworkCookie) (d p n : String) :
    NetworkSession.clear_cookies jar (some d) (some p) (some n) =
      .ok (jar.filter fun c => !(c.name == n && c.domain == d && c.path == p),
        jar.any fun c => c.name == n && c.domain == d && c.path == p) := by
  show clearCookiesAux (some d) (some p) (some n) jar = _
  induction jar with
  | nil => rfl
  | cons c rest ih =>
    have hstep : clearCookiesAux (some d) (some p) (some n) (c :: rest) =
        match (Except.ok (c.name == n && c.domain == d && c.path == p) :
            Except String Bool) with
        | .error e => .error e
        | .ok true =>
          (clearCookiesAux (some d) (some p) (some n) rest).map fun p2 => (p2.1, true)
        | .ok false =>
          (clearCookiesAux (some d) (some p) (some n) rest).map fun p2 =>
            (c :: p2.1, p2.2) := rfl
    rw [hstep, ih]
    cases hb : (c.name == n && c.domain == d && c.path == p) with
    | true =>
      simp [Except.map, List.filter_cons, List.any_cons, hb]
      obtain ⟨⟨e1, e2⟩, e3⟩ : (c.name = n ∧ c.domain = d) ∧ c.path = p := by simpa using hb
      simp [e1, e2, e3]
    | false =>
      simp [Except.map, List.filter_cons, List.any_cons, hb]
      have hb2 : ¬(c.name = n ∧ c.domain = d ∧ c.path = p) := by
        intro hcon
        obtain ⟨e1, e2, e3⟩ := hcon
        simp [e1, e2, e3] at hb
      rw [if_pos (by tauto)]

/-- A fresh client state. -/
def c7st : ClientState := ⟨Session.empty, [], [], none, none, []⟩

/-- An authenticator-produced session carrying only a session token. -/
def c7sess : Session := { Session.empty with session_token := some "t" }

/-- C7 counterexample: the `session_token` setter strips the in-memory token
but writes the unstripped value into the cookie jar, so the two diverge on a
value with trailing whitespace; and `new_session` installs a token-bearing
session without writing the session cookie into the jar at all (the jar
stays empty when the server reply sets no cookie). -/
theorem token_cookie_divergence :
    (session_token_set c7st "tok\n").session_data.session_token = some "tok" ∧
    cookiesGet (session_token_set c7st "tok\n").jar sessionCookieName = some "tok\n" ∧
    ("tok" : String) ≠ "tok\n" ∧
    ((exceptOk (new_session c5env c7st c7sess)).map fun st =>
        (st.session_data.session_token, st.jar)) = some (some "t", []) := by
  refine ⟨rfl, rfl, by decide, rfl⟩

/-- C7 (amended): the setter keeps token, cookie and persisted file in sync
exactly when the URL-decoded value carries no surrounding whitespace, storing
the stripped token in memory, the matching cookie in the jar, and the
serialized session in the file; the deleter clears the in-memory session
data, the session cookie and the file together and emits `signedOut`.
(`new_session` itself does not write the cookie jar; it relies on
`refresh_auth` to resynchronize from any cookie the server set.) -/
theorem token_cookie_sync_amended :
    (∀ (st : ClientState) (v : String), pyStrip (decode_url v) = decode_url v →
      (session_token_set st v).session_data.session_token = some (decode_url v) ∧
      (⟨sessionCookieName, host, "/", decode_url v⟩ : QNetworkCookie) ∈
        (session_token_set st v).jar ∧
      (∀ x ∈ (session_token_set st v).jar,
        x.name = sessionCookieName → x.domain = host → x.path = "/" →
          x.value = decode_url v) ∧
      (session_token_set st v).sfile =
        some (Session.to_json (session_token_set st v).session_data)) ∧
    (∀ st : ClientState,
      (session_token_del st).session_data = Session.empty ∧
      (∀ x ∈ (session_token_del st).jar,
        ¬(x.name = sessionCookieName ∧ x.domain = host ∧ x.path = "/")) ∧
      (session_token_del st).sfile = none ∧
      (session_token_del st).events = st.events ++ [ClientEvent.signedOut]) := by
  constructor
  · intro st v h
    refine ⟨?_, ?_, ?_, rfl⟩
    · simp [session_token_set, save_session_data, Client.set_cookie, h]
    · exact mem_insertCookie_self st.jar _
    · intro x hx h1 h2 h3
      have := insertCookie_value st.jar ⟨sessionCookieName, host, "/", decode_url v⟩ x hx h1 h2 h3
      rw [this]
  · intro st
    refine ⟨rfl, ?_, rfl, rfl⟩
    intro x hx h1
    obtain ⟨e1, e2, e3⟩ := h1
    have hj : (session_token_del st).jar =
        st.jar.filter fun c =>
          !(c.name == sessionCookieName && c.domain == host && c.path == "/") := by
      show Client.delete_cookie st.jar sessionCookieName = _
      rw [Client.delete_cookie, clear_cookies_all_args]
    rw [hj] at hx
    have hpred := (List.mem_filter.mp hx).2
    simp [e1, e2, e3] at hpred

/-- Witness for C7 (amended): a plain token value is stored identically in
memory and in the jar cookie. -/
theorem token_cookie_sync_amended_witness :
    pyStrip (decode_url "mytok") = decode_url "mytok" ∧
      (session_token_set c7st "mytok").session_data.session_token =
        some (decode_url "mytok") :=
  ⟨by decide, (token_cookie_sync_amended.1 c7st "mytok" (by decide)).1⟩

/-- C9 counterexample: `data` given as the empty byte string is falsy, so a
simultaneously supplied `json` value wins — the body is the serialized JSON
with `Content-Type: application/json`, not the raw bytes. -/
theorem prepare_body_falsy_data_ignored :
    prepare_body (.raw []) (some (Json.bool true)) [] =
      (some (utf8Encode (jsonDumps (Json.bool true))),
        [("Content-Type", "application/json")]) ∧
    (prepare_body (.raw []) (some (Json.bool true)) []).1 = some [116, 114, 117, 101] ∧
    (some [116, 114, 117, 101] : Option (List Nat)) ≠ some [] := by
  refine ⟨rfl, ?_, by decide⟩
  show some (utf8Encode (jsonDumps (Json.bool true))) = some [116, 114, 117, 101]
  rw [show jsonDumps (Json.bool true) = "true" by simp [jsonDumps]]
  rfl

/-- C9 (amended): a nonempty string-pair `data` mapping is URL-encoded with
the form-urlencoded content type; a supplied `json` is serialized to UTF-8
JSON with the JSON content type whenever `data` is absent or falsy (empty
mapping or empty bytes); nonempty raw bytes pass through unchanged with no
content type; and the `Content-Type` header is only added when the exact key
`'Content-Type'` is not already present in the request's own headers. -/
theorem prepare_body_amended :
    (∀ (pairs : List (String × String)) (json : Option Json)
        (headers : List (String × String)), pairs ≠ [] →
      (prepare_body (.form pairs) json headers).1 =
        some (utf8Encode (encode_url_params pairs)) ∧
      ((headers.any fun kv => kv.1 == "Content-Type") = false →
        (prepare_body (.form pairs) json headers).2 =
          headers ++ [("Content-Type", "application/x-www-form-urlencoded")]) ∧
      ((headers.any fun kv => kv.1 == "Content-Type") = true →
        (prepare_body (.form pairs) json headers).2 = headers)) ∧
    (∀ (j : Json) (headers : List (String × String)),
      (prepare_body .noData (some j) headers).1 = some (utf8Encode (jsonDumps j)) ∧
      prepare_body (.form []) (some j) headers = prepare_body .noData (some j) headers ∧
      prepare_body (.raw []) (some j) headers = prepare_body .noData (some j) headers ∧
      ((headers.any fun kv => kv.1 == "Content-Type") = false →
        (prepare_body .noData (some j) headers).2 =
          headers ++ [("Content-Type", "application/json")])) ∧
    (∀ (b : List Nat) (json : Option Json) (headers : List (String × String)),
      b ≠ [] → prepare_body (.raw b) json headers = (some b, headers)) ∧
    (∀ (data : RequestData) (json : Option Json) (headers : List (String × String)),
      (headers.any fun kv => kv.1 == "Content-Type") = true →
        (prepare_body data json headers).2 = headers) := by
  refine ⟨?_, ?_, ?_, ?_⟩
  · intro pairs json headers h
    have hpe : pairs.isEmpty = false := by
      cases pairs with
      | nil => exact absurd rfl h
      | cons a as => rfl
    refine ⟨?_, ?_, ?_⟩
    · by_cases hb : (headers.any fun kv => kv.1 == "Content-Type") = true <;>
        simp [prepare_body, dataTruthy, hpe, hb]
    · intro hb
      simp [prepare_body, dataTruthy, hpe, hb]
    · intro hb
      simp [prepare_body, dataTruthy, hpe, hb]
  · intro j headers
    refine ⟨?_, rfl, rfl, ?_⟩
    · by_cases hb : (headers.any fun kv => kv.1 == "Content-Type") = true <;>
        simp [prepare_body, dataTruthy, hb]
    · intro hb
      simp [prepare_body, dataTruthy, hb]
  · intro b json headers h
    have hbe : b.isEmpty = false := by
      cases b with
      | nil => exact absurd rfl h
      | cons a as => rfl
    simp [prepare_body, dataTruthy, hbe]
  · intro data json headers h
    simp only [prepare_body]
    split
    · simp [h]
    · rfl

/-- Witness for C9 (amended): a one-entry form mapping is URL-encoded and
the form content type is added to empty request headers. -/
theorem prepare_body_amended_witness :
    ([("a", "b c")] : List (String × String)) ≠ [] ∧
      (prepare_body (.form [("a", "b c")]) none []).1 =
        some (utf8Encode (encode_url_params [("a", "b c")])) ∧
      (prepare_body (.form [("a", "b c")]) none []).2 =
        [("Content-Type", "application/x-www-form-urlencoded")] :=
  ⟨by decide, (prepare_body_amended.1 [("a", "b c")] none [] (by decide)).1,
    (prepare_body_amended.1 [("a", "b c")] none [] (by decide)).2.1 rfl⟩

end CGui
